import Mathlib

/-!
Verification of the Shahbaz AI backend (src/main.py, src/schemas.py):
a shallow embedding of the reply-generation pipeline, the chat
orchestrator, the suggestion bank and the image placeholder endpoint,
together with proofs of the specified properties.
-/

/-- Whitespace characters recognised by Python's `str.strip()` / `str.split()`
(ASCII whitespace plus the Unicode space separators). -/
def isPySpace (c : Char) : Bool :=
  c == ' ' || c == '\t' || c == '\n' || c == '\r' || c == '\x0b' || c == '\x0c' ||
  c == '\x1c' || c == '\x1d' || c == '\x1e' || c == '\x1f' || c == '\u0085' ||
  c == '\u00a0' || c == '\u1680' || ('\u2000' ≤ c && c ≤ '\u200a') ||
  c == '\u2028' || c == '\u2029' || c == '\u202f' || c == '\u205f' || c == '\u3000'

/-- Python `s.strip()`: drop leading and trailing whitespace. -/
def pyStrip (s : String) : String :=
  String.mk (((s.toList.dropWhile isPySpace).reverse.dropWhile isPySpace).reverse)

/-- Python `s.lower()` (ASCII case mapping, which is all the glossary keys need). -/
def pyLower (s : String) : String :=
  String.mk (s.toList.map Char.toLower)

/-- Worker for `pySplit`: accumulates the current word (reversed) in `acc`. -/
def splitWords : List Char → List Char → List String
  | [], acc => if acc.isEmpty then [] else [String.mk acc.reverse]
  | c :: cs, acc =>
    if isPySpace c then
      if acc.isEmpty then splitWords cs [] else String.mk acc.reverse :: splitWords cs []
    else
      splitWords cs (c :: acc)

/-- Python `s.split()` with no separator: whitespace-delimited words, no empties. -/
def pySplit (s : String) : List String :=
  splitWords s.toList []

/-- Python `sep.join(xs)`. -/
def pyJoin (sep : String) : List String → String
  | [] => ""
  | [x] => x
  | x :: y :: xs => x ++ sep ++ pyJoin sep (y :: xs)

/-- Python `s[:n]` (slice by code points). -/
def pyTake (s : String) (n : Nat) : String :=
  String.mk (s.toList.take n)

/-- Python `dict` lookup (`d.get(k)` / `k in d` followed by `d[k]`). -/
def dictGet {α : Type} : List (String × α) → String → Option α
  | [], _ => none
  | (k, v) :: rest, key => if key = k then some v else dictGet rest key

/-- The fixed glossary of `_generate_reply`'s translation mode
(`main.py`, the `translations` dict literal). -/
def translations : List (String × List (String × String)) :=
  [("hello", [("ur", "سلام"), ("hi", "नमस्ते")]),
   ("how are you", [("ur", "آپ کیسے ہیں"), ("hi", "आप कैसे हैं")])]

/-- Embedding of `main.py` `_tone_wrap(text, mode)`. -/
def _tone_wrap (text : String) (mode : String) : String :=
  if mode = "student" then
    "Student Mode:\n" ++ "- Simple explanation\n- Key points\n- Short example\n\n" ++ text
  else if mode = "professional" then
    "Professional Mode:\n" ++ "- Concise\n- Actionable\n- Business tone\n\n" ++ text
  else if mode = "fun" then
    "Fun Mode 🎉:\n" ++ text ++ "\n(peppered with a friendly, upbeat vibe)"
  else
    text

/-- Embedding of `main.py` `_generate_reply(prompt, mode, language)`. -/
def _generate_reply (prompt : String) (mode : String) (language : String) : String :=
  let base := pyStrip prompt
  if mode = "translation" then
    let key := pyLower base
    match (dictGet translations key).bind (fun entry => dictGet entry language) with
    | some t => "Translation (" ++ language ++ "): " ++ t
    | none => "Translation (" ++ language ++ "): " ++ base
  else if mode = "summary" then
    let words := pySplit base
    let summary := if words.length > 40 then pyJoin " " (words.take 40) ++ "…" else base
    "Summary: " ++ summary
  else if mode = "writing" then
    "Here is a polished draft based on your request:\n\n" ++
    "Title: " ++ pyTake base 60 ++ "\n\n" ++
    "Paragraph 1: A clear introduction that frames the goal and context.\n\n" ++
    "Paragraph 2: Key insights, structure, and supporting details with a smooth narrative.\n\n" ++
    "Paragraph 3: A succinct wrap‑up with next steps and a strong closing."
  else
    "Answer: " ++ base ++ "\n\n" ++ "Key points:\n- Direct answer\n- Extra context\n- Practical tip"

/-- The fixed table of `_smart_suggestions` (`main.py`, the `bank` dict literal). -/
def suggestionBank : List (String × List String) :=
  [("qa", ["Explain in simple terms", "Give key takeaways", "Add examples"]),
   ("writing", ["Draft an outline", "Expand to 1000 words", "Refine tone"]),
   ("translation", ["Detect language", "Back-translate", "Transliterate"]),
   ("summary", ["Bullet summary", "TL;DR", "Action items"]),
   ("student", ["Create study notes", "Make quiz questions", "Explain like I'm 12"]),
   ("professional", ["Make an executive summary", "Draft an email", "Create a plan"]),
   ("fun", ["Tell a pun", "Make it playful", "Add emojis"])]

/-- Embedding of `main.py` `_smart_suggestions(mode)`:
`bank.get(mode or "qa", bank["qa"])[:3]`, where `mode or "qa"` treats both
`None` and `""` as missing. -/
def _smart_suggestions (mode : Option String) : List String :=
  let key := if mode.getD "" = "" then "qa" else mode.getD ""
  ((dictGet suggestionBank key).getD ((dictGet suggestionBank "qa").getD [])).take 3

/-- Message role of `schemas.py`. -/
inductive Role where
  | user
  | assistant
  | system
deriving DecidableEq

/-- Embedding of `schemas.py` `ChatSession` (stored document: title and mode). -/
structure ChatSession where
  title : String
  mode : String
deriving DecidableEq

/-- Embedding of `schemas.py` `ChatMessage` (stored document). -/
structure ChatMessage where
  session_id : String
  role : Role
  content : String
  mode : Option String
  meta : Option (List (String × String))
deriving DecidableEq

/-- Embedding of `schemas.py` / `main.py` `ImageRequest` (prompt plus optional style). -/
structure ImageRequest where
  prompt : String
  style : Option String
deriving DecidableEq

/-- A document of one of the three collections used by the backend. -/
inductive Doc where
  | session (s : ChatSession)
  | message (m : ChatMessage)
  | imagereq (r : ImageRequest)
deriving DecidableEq

/-- Modelled from the spec: the Document Store adapter (`database.py`, absent
from src/) whose `insert(collection, document) -> id` appends the document to
the named collection and returns a fresh store-assigned id. Modelled as an
append-only insert log plus a counter supplying the fresh ids. -/
structure Store where
  nextId : Nat
  inserts : List (String × Doc)
deriving DecidableEq

/-- Modelled from the spec: `create_document(collection, doc)` of the absent
`database.py` — one store insert, returning the store-assigned id. -/
def create_document (collection : String) (doc : Doc) (st : Store) : String × Store :=
  (toString st.nextId, ⟨st.nextId + 1, st.inserts ++ [(collection, doc)]⟩)

/-- Embedding of `main.py` `ChatRequest` (pydantic model; `mode` and
`language` are `Optional`, validated at the boundary to the fixed enums). -/
structure ChatRequest where
  message : String
  session_id : Option String
  mode : Option String
  language : Option String

/-- Embedding of `main.py` `ChatResponse`. -/
structure ChatResponse where
  session_id : String
  reply : String
  suggestions : List String
  mode : String
  created_at : String

/-- Embedding of `main.py` `chat(req)` (the `/api/chat` handler). The two wall-clock reads
(`%H:%M` for the auto title, ISO timestamp for `created_at`) enter as the
parameters `nowHM` and `nowISO`. -/
def chat (req : ChatRequest) (nowHM : String) (nowISO : String) (st : Store) :
    ChatResponse × Store :=
  let sidAndStore :=
    if req.session_id.getD "" = "" then
      create_document "chatsession" (Doc.session ⟨"Chat – " ++ nowHM, req.mode.getD "qa"⟩) st
    else
      (req.session_id.getD "", st)
  let session_id := sidAndStore.1
  let st1 := sidAndStore.2
  let st2 := (create_document "chatmessage"
    (Doc.message ⟨session_id, Role.user, req.message, req.mode, none⟩) st1).2
  let core := _generate_reply req.message (req.mode.getD "qa") (req.language.getD "en")
  let reply_text := _tone_wrap core (req.mode.getD "qa")
  let st3 := (create_document "chatmessage"
    (Doc.message ⟨session_id, Role.assistant, reply_text, req.mode, none⟩) st2).2
  (⟨session_id, reply_text, _smart_suggestions (some (req.mode.getD "qa")),
    req.mode.getD "qa", nowISO⟩, st3)

/-- UTF-8 encoding of a single code point (Python `str.encode("utf-8")`,
one character). -/
def utf8Char (c : Char) : List Nat :=
  let n := c.toNat
  if n < 128 then [n]
  else if n < 2048 then [192 + n / 64, 128 + n % 64]
  else if n < 65536 then [224 + n / 4096, 128 + n / 64 % 64, 128 + n % 64]
  else [240 + n / 262144, 128 + n / 4096 % 64, 128 + n / 64 % 64, 128 + n % 64]

/-- Python `s.encode("utf-8")` as a list of byte values. -/
def utf8Bytes (s : String) : List Nat :=
  (s.toList.map utf8Char).flatten

/-- The standard base64 alphabet. -/
def b64chars : List Char :=
  "ABCDEFGHIJKLMNOPQRSTUVWXYZabcdefghijklmnopqrstuvwxyz0123456789+/".toList

/-- Character for one sextet value. -/
def b64char (n : Nat) : Char :=
  b64chars.getD n 'A'

/-- Sextet value of one base64 character. -/
def b64val (c : Char) : Nat :=
  b64chars.indexOf c

/-- Python `base64.b64encode` over byte values (standard alphabet, padded). -/
def base64Encode : List Nat → List Char
  | [] => []
  | [a] => [b64char (a / 4), b64char (a % 4 * 16), '=', '=']
  | [a, b] => [b64char (a / 4), b64char (a % 4 * 16 + b / 16), b64char (b % 16 * 4), '=']
  | a :: b :: c :: rest =>
    b64char (a / 4) :: b64char (a % 4 * 16 + b / 16) :: b64char (b % 16 * 4 + c / 64) ::
      b64char (c % 64) :: base64Encode rest

/-- Base64 decoding over characters (standard alphabet, padded). -/
def base64Decode : List Char → List Nat
  | c1 :: c2 :: c3 :: c4 :: rest =>
    if c3 = '=' then [b64val c1 * 4 + b64val c2 / 16]
    else if c4 = '=' then
      [b64val c1 * 4 + b64val c2 / 16, b64val c2 % 16 * 16 + b64val c3 / 4]
    else
      (b64val c1 * 4 + b64val c2 / 16) :: (b64val c2 % 16 * 16 + b64val c3 / 4) ::
        (b64val c3 % 4 * 64 + b64val c4) :: base64Decode rest
  | _ => []

/-- The fixed SVG template of `main.py` `image(req)` with the (truncated)
prompt as title, reproduced verbatim from the f-string. -/
def svgTemplate (title : String) : String :=
  "<svg xmlns=\"http://www.w3.org/2000/svg\" width=\"1024\" height=\"1024\" viewBox=\"0 0 1024 1024\">\n" ++
  "    <defs>\n" ++
  "      <linearGradient id=\"g\" x1=\"0\" x2=\"1\" y1=\"0\" y2=\"1\">\n" ++
  "        <stop offset=\"0%\" stop-color=\"#00A8FF\"/>\n" ++
  "        <stop offset=\"50%\" stop-color=\"#00EFFF\"/>\n" ++
  "        <stop offset=\"100%\" stop-color=\"#64FFFF\"/>\n" ++
  "      </linearGradient>\n" ++
  "      <filter id=\"glow\" x=\"-40%\" y=\"-40%\" width=\"180%\" height=\"180%\">\n" ++
  "        <feGaussianBlur stdDeviation=\"12\" result=\"coloredBlur\"/>\n" ++
  "        <feMerge>\n" ++
  "          <feMergeNode in=\"coloredBlur\"/>\n" ++
  "          <feMergeNode in=\"SourceGraphic\"/>\n" ++
  "        </feMerge>\n" ++
  "      </filter>\n" ++
  "    </defs>\n" ++
  "    <rect width=\"1024\" height=\"1024\" fill=\"#000814\"/>\n" ++
  "    <circle cx=\"512\" cy=\"512\" r=\"360\" fill=\"url(#g)\" opacity=\"0.15\" filter=\"url(#glow)\"/>\n" ++
  "    <path d=\"M512 240 C600 260 700 340 720 460 C700 520 620 560 560 640 C520 700 520 760 512 784 C504 760 504 700 464 640 C404 560 324 520 304 460 C324 340 424 260 512 240 Z\" fill=\"url(#g)\" opacity=\"0.9\" filter=\"url(#glow)\"/>\n" ++
  "    <text x=\"50%\" y=\"82%\" dominant-baseline=\"middle\" text-anchor=\"middle\" font-family=\"Inter, Arial\" font-size=\"44\" fill=\"#E6F7FF\" opacity=\"0.95\">" ++ title ++ "</text>\n" ++
  "    <text x=\"50%\" y=\"90%\" dominant-baseline=\"middle\" text-anchor=\"middle\" font-family=\"Inter, Arial\" font-size=\"24\" fill=\"#8AD8FF\" opacity=\"0.85\">Shahbaz AI · BlueFlame</text>\n" ++
  "  </svg>"

/-- Embedding of `main.py` `image(req)` (the `/api/image` handler). `storeFails = true`
models the audit-log insert raising an exception (caught by the handler's
bare `try/except: pass`); `false` models a successful insert. -/
def image (req : ImageRequest) (storeFails : Bool) (st : Store) : String × Store :=
  let prompt := pyStrip (if req.prompt = "" then "Shahbaz AI" else req.prompt)
  let title := pyTake prompt 80
  let svg := svgTemplate title
  let data_uri := "data:image/svg+xml;base64," ++ String.mk (base64Encode (utf8Bytes svg))
  let st1 :=
    if storeFails then st
    else (create_document "imagerequest" (Doc.imagereq ⟨req.prompt, req.style⟩) st).2
  (data_uri, st1)

/-! ## Helper lemmas -/

theorem b64val_b64char : ∀ n, n < 64 → b64val (b64char n) = n := by decide

theorem b64char_ne_pad : ∀ n, n < 64 → b64char n ≠ '=' := by decide

theorem base64_roundtrip (bs : List Nat) (hb : ∀ b ∈ bs, b < 256) :
    base64Decode (base64Encode bs) = bs := by
  induction bs using base64Encode.induct with
  | case1 => rfl
  | case2 a =>
    have ha : a < 256 := hb a (by simp)
    have e1 := b64val_b64char (a / 4) (by omega)
    have e2 := b64val_b64char (a % 4 * 16) (by omega)
    simp [base64Encode, base64Decode, e1, e2]
    omega
  | case3 a b =>
    have ha : a < 256 := hb a (by simp)
    have hbb : b < 256 := hb b (by simp)
    have h3 : b64char (b % 16 * 4) ≠ '=' := b64char_ne_pad _ (by omega)
    have e1 := b64val_b64char (a / 4) (by omega)
    have e2 := b64val_b64char (a % 4 * 16 + b / 16) (by omega)
    have e3 := b64val_b64char (b % 16 * 4) (by omega)
    simp [base64Encode, base64Decode, h3, e1, e2, e3]
    omega
  | case4 a b c rest ih =>
    have ha : a < 256 := hb a (by simp)
    have hbb : b < 256 := hb b (by simp)
    have hc : c < 256 := hb c (by simp)
    have hrest : ∀ x ∈ rest, x < 256 := fun x hx => hb x (by simp [hx])
    have h3 : b64char (b % 16 * 4 + c / 64) ≠ '=' := b64char_ne_pad _ (by omega)
    have h4 : b64char (c % 64) ≠ '=' := b64char_ne_pad _ (by omega)
    have e1 := b64val_b64char (a / 4) (by omega)
    have e2 := b64val_b64char (a % 4 * 16 + b / 16) (by omega)
    have e3 := b64val_b64char (b % 16 * 4 + c / 64) (by omega)
    have e4 := b64val_b64char (c % 64) (by omega)
    simp [base64Encode, base64Decode, h3, h4, e1, e2, e3, e4, ih hrest]
    omega

theorem char_toNat_lt (c : Char) : c.toNat < 1114112 := by
  have h := c.valid
  rcases h with h | ⟨h1, h2⟩
  · exact Nat.lt_trans h (by decide)
  · exact h2

theorem utf8Char_lt (c : Char) : ∀ b ∈ utf8Char c, b < 256 := by
  intro b hb
  have hn := char_toNat_lt c
  simp only [utf8Char] at hb
  split at hb
  · simp at hb; omega
  · split at hb
    · simp at hb; omega
    · split at hb
      · simp at hb
        rcases hb with h | h | h <;> omega
      · simp at hb
        rcases hb with h | h | h | h <;> omega

theorem utf8Bytes_lt (s : String) : ∀ b ∈ utf8Bytes s, b < 256 := by
  intro b hb
  simp only [utf8Bytes, List.mem_flatten, List.mem_map] at hb
  obtain ⟨l, ⟨c, _, rfl⟩, hbl⟩ := hb
  exact utf8Char_lt c b hbl

theorem svgTemplate_ne {t1 t2 : String} (h : t1.length ≠ t2.length) :
    svgTemplate t1 ≠ svgTemplate t2 := by
  intro heq
  have hlen := congrArg String.length heq
  simp only [svgTemplate, String.length_append] at hlen
  omega

/-! ## Claim theorems -/

/-- C3: in translation mode the generator lower-cases the trimmed prompt and
looks it up in the fixed two-entry glossary (keys "hello" and "how are you",
languages "ur" and "hi"); a hit returns `Translation (<language>): <entry>`,
anything else falls back to `Translation (<language>): <trimmed prompt>`. -/
theorem translation_mode_spec :
    _generate_reply "hello" "translation" "ur" = "Translation (ur): سلام"
  ∧ _generate_reply "HELLO" "translation" "hi" = "Translation (hi): नमस्ते"
  ∧ (∀ p, pyLower (pyStrip p) = "hello" →
      _generate_reply p "translation" "ur" = "Translation (ur): سلام"
      ∧ _generate_reply p "translation" "hi" = "Translation (hi): नमस्ते")
  ∧ (∀ p, pyLower (pyStrip p) = "how are you" →
      _generate_reply p "translation" "ur" = "Translation (ur): آپ کیسے ہیں"
      ∧ _generate_reply p "translation" "hi" = "Translation (hi): आप कैसे हैं")
  ∧ (∀ p l, pyLower (pyStrip p) ≠ "hello" → pyLower (pyStrip p) ≠ "how are you" →
      _generate_reply p "translation" l = "Translation (" ++ l ++ "): " ++ pyStrip p)
  ∧ (∀ p l, l ≠ "ur" → l ≠ "hi" →
      _generate_reply p "translation" l = "Translation (" ++ l ++ "): " ++ pyStrip p) := by
  refine ⟨by decide, by decide, ?_, ?_, ?_, ?_⟩
  · intro p h
    constructor <;> simp [_generate_reply, translations, dictGet, h]
  · intro p h
    constructor <;> simp [_generate_reply, translations, dictGet, h]
  · intro p l h1 h2
    simp [_generate_reply, translations, dictGet, h1, h2]
  · intro p l h1 h2
    by_cases hk1 : pyLower (pyStrip p) = "hello"
    · simp [_generate_reply, translations, dictGet, hk1, h1, h2]
    · by_cases hk2 : pyLower (pyStrip p) = "how are you"
      · simp [_generate_reply, translations, dictGet, hk2, h1, h2]
      · simp [_generate_reply, translations, dictGet, hk1, hk2]

/-- Witness for C3: the theorem applied at concrete inputs. -/
theorem translation_mode_spec_witness :
    _generate_reply " Hello " "translation" "ur" = "Translation (ur): سلام"
  ∧ _generate_reply "xyz" "translation" "ur" = "Translation (ur): xyz"
  ∧ _generate_reply "hello" "translation" "en" = "Translation (en): hello" :=
  ⟨(translation_mode_spec.2.2.1 " Hello " (by decide)).1,
   translation_mode_spec.2.2.2.2.1 "xyz" "ur" (by decide) (by decide),
   translation_mode_spec.2.2.2.2.2 "hello" "en" (by decide) (by decide)⟩

/-- C4: the tone wrapper is the identity for every mode outside
student/professional/fun (so wrapping commutes away over the generator);
student and professional prefix a fixed header plus three bullet lines, and
fun appends a fixed sign-off line. -/
theorem tone_wrap_spec :
    (∀ x mode lang, mode ≠ "student" → mode ≠ "professional" → mode ≠ "fun" →
      _tone_wrap (_generate_reply x mode lang) mode = _generate_reply x mode lang)
  ∧ (∀ text, _tone_wrap text "student"
      = "Student Mode:\n" ++ "- Simple explanation\n- Key points\n- Short example\n\n" ++ text)
  ∧ (∀ text, _tone_wrap text "professional"
      = "Professional Mode:\n" ++ "- Concise\n- Actionable\n- Business tone\n\n" ++ text)
  ∧ (∀ text, _tone_wrap text "fun"
      = "Fun Mode 🎉:\n" ++ text ++ "\n(peppered with a friendly, upbeat vibe)")
  ∧ (∀ text mode, mode ≠ "student" → mode ≠ "professional" → mode ≠ "fun" →
      _tone_wrap text mode = text) := by
  refine ⟨?_, ?_, ?_, ?_, ?_⟩
  · intro x mode lang h1 h2 h3
    simp [_tone_wrap, h1, h2, h3]
  · intro text; simp [_tone_wrap]
  · intro text; simp [_tone_wrap]
  · intro text; simp [_tone_wrap]
  · intro text mode h1 h2 h3
    simp [_tone_wrap, h1, h2, h3]

/-- Witness for C4: identity wrapping at concrete non-decorated modes. -/
theorem tone_wrap_spec_witness :
    _tone_wrap (_generate_reply "x" "qa" "en") "qa" = _generate_reply "x" "qa" "en"
  ∧ _tone_wrap "t" "summary" = "t" :=
  ⟨tone_wrap_spec.1 "x" "qa" "en" (by decide) (by decide) (by decide),
   tone_wrap_spec.2.2.2.2 "t" "summary" (by decide) (by decide) (by decide)⟩

/-- C5 counterexample: for a prompt with surrounding whitespace and at most 40
words, summary mode returns `Summary: ` followed by the *trimmed* prompt, not
the prompt unchanged as the claim states. -/
theorem summary_claim_cex :
    _generate_reply " hi " "summary" "en" = "Summary: hi"
  ∧ _generate_reply " hi " "summary" "en" ≠ "Summary: " ++ " hi " := by
  constructor <;> decide

/-- C5 (amended): in summary mode the generator splits the trimmed prompt into
whitespace-delimited words; with more than 40 words the result is `Summary: `
followed by the first 40 words (joined by single spaces) and an ellipsis
marker, otherwise `Summary: ` followed by the trimmed prompt unchanged. -/
theorem summary_mode_spec : ∀ (p lang : String),
    (40 < (pySplit (pyStrip p)).length →
      _generate_reply p "summary" lang
        = "Summary: " ++ (pyJoin " " ((pySplit (pyStrip p)).take 40) ++ "…"))
  ∧ ((pySplit (pyStrip p)).length ≤ 40 →
      _generate_reply p "summary" lang = "Summary: " ++ pyStrip p) := by
  intro p lang
  constructor
  · intro h
    simp [_generate_reply, h]
  · intro h
    have h2 : ¬ (40 < (pySplit (pyStrip p)).length) := by omega
    simp [_generate_reply, h2]

/-- Witness for C5: a two-word prompt keeps the trimmed prompt; a 41-word
prompt is cut to 40 words plus the ellipsis. -/
theorem summary_mode_spec_witness :
    _generate_reply "a b" "summary" "en" = "Summary: " ++ pyStrip "a b"
  ∧ _generate_reply
      "w w w w w w w w w w w w w w w w w w w w w w w w w w w w w w w w w w w w w w w w w"
      "summary" "en"
    = "Summary: "
      ++ (pyJoin " " ((pySplit (pyStrip
            "w w w w w w w w w w w w w w w w w w w w w w w w w w w w w w w w w w w w w w w w w")).take 40)
          ++ "…") :=
  ⟨(summary_mode_spec "a b" "en").2 (by decide),
   (summary_mode_spec
      "w w w w w w w w w w w w w w w w w w w w w w w w w w w w w w w w w w w w w w w w w"
      "en").1 (by decide)⟩

/-- C6: the suggestion bank returns at most 3 strings for every mode, exactly
the fixed 3-string entry for each of the 7 enum modes, and the qa entry for
every unknown or missing mode. -/
theorem smart_suggestions_spec :
    (∀ mode, (_smart_suggestions mode).length ≤ 3)
  ∧ _smart_suggestions (some "qa") = ["Explain in simple terms", "Give key takeaways", "Add examples"]
  ∧ _smart_suggestions (some "writing") = ["Draft an outline", "Expand to 1000 words", "Refine tone"]
  ∧ _smart_suggestions (some "translation") = ["Detect language", "Back-translate", "Transliterate"]
  ∧ _smart_suggestions (some "summary") = ["Bullet summary", "TL;DR", "Action items"]
  ∧ _smart_suggestions (some "student") = ["Create study notes", "Make quiz questions", "Explain like I'm 12"]
  ∧ _smart_suggestions (some "professional") = ["Make an executive summary", "Draft an email", "Create a plan"]
  ∧ _smart_suggestions (some "fun") = ["Tell a pun", "Make it playful", "Add emojis"]
  ∧ _smart_suggestions (some "unknown") = _smart_suggestions (some "qa")
  ∧ _smart_suggestions none = _smart_suggestions (some "qa")
  ∧ (∀ m, m ∉ ["qa", "writing", "translation", "summary", "student", "professional", "fun"] →
      _smart_suggestions (some m) = _smart_suggestions (some "qa")) := by
  refine ⟨?_, by decide, by decide, by decide, by decide, by decide, by decide, by decide,
    by decide, by decide, ?_⟩
  · intro mode
    simp only [_smart_suggestions]
    simp [List.length_take]
  · intro m hm
    simp only [List.mem_cons, List.not_mem_nil, or_false] at hm
    push_neg at hm
    obtain ⟨h1, h2, h3, h4, h5, h6, h7⟩ := hm
    by_cases he : m = ""
    · subst he; decide
    · simp [_smart_suggestions, suggestionBank, dictGet, he, h1, h2, h3, h4, h5, h6, h7]

/-- Witness for C6: an off-table mode falls back to the qa entry. -/
theorem smart_suggestions_spec_witness :
    _smart_suggestions (some "es") = _smart_suggestions (some "qa") :=
  smart_suggestions_spec.2.2.2.2.2.2.2.2.2.2 "es" (by decide)

/-- C1: a chat call with an absent or empty session id performs exactly one
`chatsession` insert and returns the store-assigned id; a call with a
non-empty session id performs no `chatsession` insert and returns the same id
unchanged. -/
theorem chat_session_insert_spec : ∀ (req : ChatRequest) (nowHM nowISO : String) (st : Store),
    (chat req nowHM nowISO st).2.inserts.countP (fun p => p.1 == "chatsession")
      = st.inserts.countP (fun p => p.1 == "chatsession")
        + (if req.session_id.getD "" = "" then 1 else 0)
  ∧ (chat req nowHM nowISO st).1.session_id
      = (if req.session_id.getD "" = "" then toString st.nextId else req.session_id.getD "") := by
  intro req nowHM nowISO st
  by_cases h : req.session_id.getD "" = "" <;>
    simp [chat, create_document, h, List.countP_append]

/-- C2: every chat call performs exactly two `chatmessage` inserts, first the
user message carrying the raw inbound text, then the assistant message
carrying the reply returned to the caller, both under the effective session
id of the response. -/
theorem chat_message_inserts_spec : ∀ (req : ChatRequest) (nowHM nowISO : String) (st : Store),
    (chat req nowHM nowISO st).2.inserts.filter (fun p => p.1 == "chatmessage")
      = st.inserts.filter (fun p => p.1 == "chatmessage")
        ++ [("chatmessage", Doc.message
              ⟨(chat req nowHM nowISO st).1.session_id, Role.user, req.message, req.mode, none⟩),
            ("chatmessage", Doc.message
              ⟨(chat req nowHM nowISO st).1.session_id, Role.assistant,
               (chat req nowHM nowISO st).1.reply, req.mode, none⟩)] := by
  intro req nowHM nowISO st
  by_cases h : req.session_id.getD "" = "" <;>
    simp [chat, create_document, h, List.filter_append]

/-- C9: a chat request with `mode = none` gets its reply, suggestions and
echoed mode computed as for mode "qa", while the two persisted chat messages
carry `mode = none`. -/
theorem chat_null_mode_spec : ∀ (msg : String) (sid lang : Option String)
    (nowHM nowISO : String) (st : Store),
    (chat ⟨msg, sid, none, lang⟩ nowHM nowISO st).1.reply
      = (chat ⟨msg, sid, some "qa", lang⟩ nowHM nowISO st).1.reply
  ∧ (chat ⟨msg, sid, none, lang⟩ nowHM nowISO st).1.suggestions
      = (chat ⟨msg, sid, some "qa", lang⟩ nowHM nowISO st).1.suggestions
  ∧ (chat ⟨msg, sid, none, lang⟩ nowHM nowISO st).1.mode = "qa"
  ∧ (chat ⟨msg, sid, none, lang⟩ nowHM nowISO st).2.inserts.filter (fun p => p.1 == "chatmessage")
      = st.inserts.filter (fun p => p.1 == "chatmessage")
        ++ [("chatmessage", Doc.message
              ⟨(chat ⟨msg, sid, none, lang⟩ nowHM nowISO st).1.session_id, Role.user, msg, none, none⟩),
            ("chatmessage", Doc.message
              ⟨(chat ⟨msg, sid, none, lang⟩ nowHM nowISO st).1.session_id, Role.assistant,
               (chat ⟨msg, sid, none, lang⟩ nowHM nowISO st).1.reply, none, none⟩)] := by
  intro msg sid lang nowHM nowISO st
  by_cases h : sid.getD "" = "" <;>
    simp [chat, create_document, h, List.filter_append]

/-- C10: reply generation is deterministic and store-independent — the reply
is the pure tone-wrapped generator output of (message, mode, language) and the
suggestions are the pure suggestion-bank output of the mode, whatever the
store contents, session id or timestamps. -/
theorem chat_reply_pure : ∀ (req : ChatRequest) (nowHM nowISO : String) (st : Store),
    (chat req nowHM nowISO st).1.reply
      = _tone_wrap (_generate_reply req.message (req.mode.getD "qa") (req.language.getD "en"))
          (req.mode.getD "qa")
  ∧ (chat req nowHM nowISO st).1.suggestions = _smart_suggestions (some (req.mode.getD "qa")) := by
  intro req nowHM nowISO st
  by_cases h : req.session_id.getD "" = "" <;> simp [chat, create_document, h]

/-- C7 counterexample: for the empty prompt the payload encodes the SVG with
the default title "Shahbaz AI", which is not the SVG titled with the prompt
(or its 80-character truncation), so the claim fails at prompt = "". -/
theorem image_title_claim_cex :
    (image ⟨"", none⟩ false ⟨0, []⟩).1
      = "data:image/svg+xml;base64,"
        ++ String.mk (base64Encode (utf8Bytes (svgTemplate "Shahbaz AI")))
  ∧ base64Decode (base64Encode (utf8Bytes (svgTemplate "Shahbaz AI")))
      = utf8Bytes (svgTemplate "Shahbaz AI")
  ∧ svgTemplate "Shahbaz AI" ≠ svgTemplate (pyTake "" 80) :=
  ⟨rfl, base64_roundtrip _ (utf8Bytes_lt _), svgTemplate_ne (by decide)⟩

/-- C7 (amended): `image` is total — for every prompt (empty prompt replaced
by the default "Shahbaz AI" before trimming) and every style, it returns a
base64 SVG data URI whose payload decodes exactly to the fixed SVG markup
embedding, as title, the first 80 characters of the trimmed prompt. -/
theorem image_returns_svg_data_uri : ∀ (req : ImageRequest) (storeFails : Bool) (st : Store),
    (image req storeFails st).1
      = "data:image/svg+xml;base64,"
        ++ String.mk (base64Encode (utf8Bytes (svgTemplate
            (pyTake (pyStrip (if req.prompt = "" then "Shahbaz AI" else req.prompt)) 80))))
  ∧ base64Decode (base64Encode (utf8Bytes (svgTemplate
        (pyTake (pyStrip (if req.prompt = "" then "Shahbaz AI" else req.prompt)) 80))))
      = utf8Bytes (svgTemplate
          (pyTake (pyStrip (if req.prompt = "" then "Shahbaz AI" else req.prompt)) 80)) := by
  intro req storeFails st
  exact ⟨rfl, base64_roundtrip _ (utf8Bytes_lt _)⟩

/-- C8: the image audit-log insert is best-effort — a failing store insert is
swallowed, the returned data URI is identical to the success case, and the
success case appends exactly one `imagerequest` record. -/
theorem image_insert_best_effort : ∀ (req : ImageRequest) (st : Store),
    (image req true st).1 = (image req false st).1
  ∧ (image req true st).2 = st
  ∧ (image req false st).2.inserts
      = st.inserts ++ [("imagerequest", Doc.imagereq ⟨req.prompt, req.style⟩)] := by
  intro req st
  exact ⟨rfl, rfl, rfl⟩
